import Mathlib

/-!
Verification of the naijavibecheck harvesting/analysis subsystem.

Shallow embedding of the relevant services:
* `app/services/analyzer/viral_scorer.py` (`calculate_viral_score`)
* `app/services/analyzer/comment_selector.py` (`_select_diverse`, `_text_similarity`)
* `app/services/analyzer/analysis_pipeline.py` (`_calculate_stats`, `_calculate_controversy_score`)
* `app/services/analyzer/cost_effective_analyzer.py` (`_local_sentiment`, `enhance_with_claude`)
* `app/services/scraper/robust_scraper.py` (`scrape_all_comments` loop, `_handle_rate_limit`, `_reset_backoff`)
* `app/services/scraper/rate_limiter.py` (`wait_if_needed`)

Python floats are modelled by `ℚ`; Python `round(x, n)` (banker's rounding)
is modelled by `pyRound`.
-/

namespace NaijaVibe

/-- Python's `round` on a number: round-half-to-even to the nearest integer. -/
def pyRoundInt (q : ℚ) : ℤ :=
  let f := ⌊q⌋
  let r := q - f
  if r < 1/2 then f
  else if 1/2 < r then f + 1
  else if f % 2 = 0 then f else f + 1

/-- Python's `round(x, ndigits)`: round-half-to-even at `ndigits` decimal places. -/
def pyRound (ndigits : ℕ) (q : ℚ) : ℚ :=
  (pyRoundInt (q * 10 ^ ndigits) : ℚ) / 10 ^ ndigits

theorem pyRoundInt_intCast (z : ℤ) : pyRoundInt (z : ℚ) = z := by
  simp [pyRoundInt]

/-- `pyRound` is the identity on rationals that are exact at `ndigits` decimals. -/
theorem pyRound_eq_self_of_int (ndigits : ℕ) (q : ℚ) (z : ℤ)
    (h : q * 10 ^ ndigits = (z : ℚ)) : pyRound ndigits q = q := by
  unfold pyRound
  rw [h, pyRoundInt_intCast, ← h]
  field_simp

/-! ## Viral scorer (`viral_scorer.py`, `ViralScorer.calculate_viral_score`)

The Python function takes `likes`, `comments`, an optional `posted_at`
timestamp and an optional `follower_count`.  The only use of `posted_at` is
`age_hours = max((utcnow - posted_at).total_seconds() / 3600, 1)`; we take the
elapsed hours as the parameter. -/

/-- `likes_score = min((likes / 500_000) * 20, 20)` -/
def likesScore (likes : ℕ) : ℚ := min ((likes : ℚ) / 500000 * 20) 20

/-- `comments_score = min((comments / 50_000) * 20, 20)` -/
def commentsScore (comments : ℕ) : ℚ := min ((comments : ℚ) / 50000 * 20) 20

/-- `controversy_score = min(comment_ratio * 40, 20)` when `likes > 0`, else no bonus. -/
def controversyBonus (likes comments : ℕ) : ℚ :=
  if 0 < likes then min ((comments : ℚ) / likes * 40) 20 else 0

/-- `velocity_score = min((engagement_per_hour / 10_000) * 20, 20)` where
`engagement_per_hour = (likes + comments) / max(age_hours, 1)`. -/
def velocityBonus (likes comments : ℕ) (ageHours : Option ℚ) : ℚ :=
  match ageHours with
  | none => 0
  | some h => min (((likes : ℚ) + comments) / max h 1 / 10000 * 20) 20

/-- `relative_score = min(engagement_rate * 200, 20)` when a positive follower
count is given (`if follower_count and follower_count > 0`). -/
def relativeBonus (likes comments : ℕ) (followerCount : Option ℕ) : ℚ :=
  match followerCount with
  | none => 0
  | some fc => if 0 < fc then min (((likes : ℚ) + comments) / fc * 200) 20 else 0

/-- `ViralScorer.calculate_viral_score`: sum of the capped sub-scores, final
result capped at 100. -/
def calculate_viral_score (likes comments : ℕ) (ageHours : Option ℚ)
    (followerCount : Option ℕ) : ℚ :=
  min (likesScore likes + commentsScore comments + controversyBonus likes comments
    + velocityBonus likes comments ageHours + relativeBonus likes comments followerCount) 100

theorem commentsScore_mono {c1 c2 : ℕ} (h : c1 ≤ c2) : commentsScore c1 ≤ commentsScore c2 := by
  unfold commentsScore
  have : (c1 : ℚ) ≤ (c2 : ℚ) := by exact_mod_cast h
  gcongr

theorem controversyBonus_mono (likes : ℕ) {c1 c2 : ℕ} (h : c1 ≤ c2) :
    controversyBonus likes c1 ≤ controversyBonus likes c2 := by
  unfold controversyBonus
  have : (c1 : ℚ) ≤ (c2 : ℚ) := by exact_mod_cast h
  split
  · gcongr
  · exact le_refl (0:ℚ)

theorem velocityBonus_mono (likes : ℕ) {c1 c2 : ℕ} (h : c1 ≤ c2) (age : Option ℚ) :
    velocityBonus likes c1 age ≤ velocityBonus likes c2 age := by
  have : (c1 : ℚ) ≤ (c2 : ℚ) := by exact_mod_cast h
  cases age with
  | none => exact le_refl _
  | some a =>
    show min _ _ ≤ min _ _
    have h1 : (0:ℚ) < max a 1 := lt_of_lt_of_le one_pos (le_max_right a 1)
    gcongr

theorem relativeBonus_mono (likes : ℕ) {c1 c2 : ℕ} (h : c1 ≤ c2) (fc : Option ℕ) :
    relativeBonus likes c1 fc ≤ relativeBonus likes c2 fc := by
  have : (c1 : ℚ) ≤ (c2 : ℚ) := by exact_mod_cast h
  cases fc with
  | none => exact le_refl _
  | some f =>
    simp only [relativeBonus]
    split
    case isTrue hf =>
      have hf2 : (0:ℚ) < f := by exact_mod_cast hf
      gcongr
    case isFalse => exact le_refl (0:ℚ)

theorem velocityBonus_age_mono (likes comments : ℕ) {h1 h2 : ℚ} (hle : h2 ≤ h1) :
    velocityBonus likes comments (some h1) ≤ velocityBonus likes comments (some h2) := by
  show min _ _ ≤ min _ _
  have hp : (0:ℚ) < max h2 1 := lt_of_lt_of_le one_pos (le_max_right h2 1)
  have hm : max h2 1 ≤ max h1 1 := max_le_max hle (le_refl 1)
  gcongr

theorem likesScore_nonneg (likes : ℕ) : 0 ≤ likesScore likes := by
  unfold likesScore; positivity

theorem commentsScore_nonneg (c : ℕ) : 0 ≤ commentsScore c := by
  unfold commentsScore; positivity

theorem controversyBonus_nonneg (l c : ℕ) : 0 ≤ controversyBonus l c := by
  unfold controversyBonus; split <;> positivity

theorem velocityBonus_nonneg (l c : ℕ) (age : Option ℚ) : 0 ≤ velocityBonus l c age := by
  cases age with
  | none => exact le_refl _
  | some a =>
    show (0:ℚ) ≤ min _ _
    have h1 : (0:ℚ) < max a 1 := lt_of_lt_of_le one_pos (le_max_right a 1)
    positivity

theorem relativeBonus_nonneg (l c : ℕ) (fc : Option ℕ) : 0 ≤ relativeBonus l c fc := by
  cases fc with
  | none => exact le_refl _
  | some f =>
    simp only [relativeBonus]
    split <;> positivity

/-- C2 counterexample: `calculate_viral_score` is NOT monotone in likes.
At `comments = 100`, raising likes from 200 to 201 lowers the controversy
bonus (`min(comments/likes * 40, 20)` falls off its cap) by far more than the
likes sub-score gains, so the total score strictly decreases. -/
theorem C2_counterexample :
    calculate_viral_score 201 100 none none < calculate_viral_score 200 100 none none := by
  norm_num [calculate_viral_score, likesScore, commentsScore, controversyBonus,
    velocityBonus, relativeBonus]

/-- C2 (amended): holding the other inputs fixed, `calculate_viral_score` is
monotonically non-decreasing in comments and in engagement velocity (that is,
non-increasing in the age of the post, which is the sole variable the
engagement-per-hour velocity decreases in), and its result always lies in
[0, 100].  It is not monotone in likes (see the counterexample): the
comment/like controversy ratio decreases in likes. -/
theorem C2_viral_score_amended :
    (∀ (likes c1 c2 : ℕ) (age : Option ℚ) (fc : Option ℕ), c1 ≤ c2 →
      calculate_viral_score likes c1 age fc ≤ calculate_viral_score likes c2 age fc) ∧
    (∀ (likes comments : ℕ) (fc : Option ℕ) (h1 h2 : ℚ), h2 ≤ h1 →
      calculate_viral_score likes comments (some h1) fc
        ≤ calculate_viral_score likes comments (some h2) fc) ∧
    (∀ (likes comments : ℕ) (age : Option ℚ) (fc : Option ℕ),
      0 ≤ calculate_viral_score likes comments age fc ∧
      calculate_viral_score likes comments age fc ≤ 100) := by
  refine ⟨?_, ?_, ?_⟩
  · intro likes c1 c2 age fc h
    unfold calculate_viral_score
    refine min_le_min ?_ (le_refl _)
    have m1 := commentsScore_mono h
    have m2 := controversyBonus_mono likes h
    have m3 := velocityBonus_mono likes h age
    have m4 := relativeBonus_mono likes h fc
    linarith
  · intro likes comments fc h1 h2 hle
    unfold calculate_viral_score
    refine min_le_min ?_ (le_refl _)
    have m := velocityBonus_age_mono likes comments hle
    linarith
  · intro likes comments age fc
    constructor
    · refine le_min ?_ (by norm_num)
      have := likesScore_nonneg likes
      have := commentsScore_nonneg comments
      have := controversyBonus_nonneg likes comments
      have := velocityBonus_nonneg likes comments age
      have := relativeBonus_nonneg likes comments fc
      linarith
    · exact min_le_right _ _

/-- Witness for `C2_viral_score_amended` at concrete inputs. -/
theorem C2_viral_score_amended_witness :
    calculate_viral_score 10 3 none none ≤ calculate_viral_score 10 5 none none ∧
    calculate_viral_score 5 5 (some 4) none ≤ calculate_viral_score 5 5 (some 2) none ∧
    (0 ≤ calculate_viral_score 1 1 none none ∧ calculate_viral_score 1 1 none none ≤ 100) :=
  ⟨C2_viral_score_amended.1 10 3 5 none none (by norm_num),
   C2_viral_score_amended.2.1 5 5 none 4 2 (by norm_num),
   C2_viral_score_amended.2.2 1 1 none none⟩

/-! ## Comment selector (`comment_selector.py`)

`_text_similarity` builds the lower-cased word set of each text
(`set(text.lower().split())`) and returns intersection-over-union; 0 when
either set is empty.  `_select_diverse` greedily keeps a sorted candidate iff
its similarity with every comment kept so far is at most 0.6 — but only when
the candidate list is strictly longer than `top_n`; otherwise the list is
returned unchanged.

Python's `str.lower()` is modelled as a per-character map (`pyLower`) and
`str.split()` (split on whitespace runs, dropping empty pieces) as
`wordsAux`. -/

theorem char_toLower_idem (c : Char) : c.toLower.toLower = c.toLower := by
  simp only [Char.toLower]
  split
  case isTrue h =>
    have hv : Nat.isValidChar (c.toNat + 32) := by left; omega
    have heq : (Char.ofNat (c.toNat + 32)).toNat = c.toNat + 32 := by
      simp only [Char.ofNat, Char.ofNatAux, Char.toNat] at hv ⊢
      rw [dif_pos hv]
      exact BitVec.toNat_ofNatLt _ _
    rw [heq]
    split
    · omega
    · rfl
  case isFalse h =>
    rfl

/-- Python's `str.lower()` (character-wise; ASCII case mapping). -/
def pyLower (s : String) : String := String.mk (s.data.map Char.toLower)

theorem pyLower_idem (s : String) : pyLower (pyLower s) = pyLower s := by
  simp only [pyLower, List.map_map]
  congr 1
  exact List.map_congr_left (fun c _ => char_toLower_idem c)

/-- Splitter for Python's `str.split()`: split on whitespace runs, dropping
empty pieces; `acc` holds the reversed characters of the current word. -/
def wordsAux : List Char → List Char → List String
  | [], acc => if acc.isEmpty then [] else [String.mk acc.reverse]
  | c :: cs, acc =>
    if c.isWhitespace then
      if acc.isEmpty then wordsAux cs [] else String.mk acc.reverse :: wordsAux cs []
    else wordsAux cs (c :: acc)

/-- Python's `text.split()`. -/
def pyWords (s : String) : List String := wordsAux s.data []

/-- `set(text.lower().split())` as in `_text_similarity`. -/
def wordSet (s : String) : Finset String := (pyWords (pyLower s)).toFinset

/-- `CommentSelector._text_similarity`: intersection-over-union of the
lower-cased word sets, 0 when either is empty. -/
def textSimilarity (t1 t2 : String) : ℚ :=
  if wordSet t1 = ∅ ∨ wordSet t2 = ∅ then 0
  else ((wordSet t1 ∩ wordSet t2).card : ℚ) / ((wordSet t1 ∪ wordSet t2).card)

theorem wordSet_pyLower (s : String) : wordSet (pyLower s) = wordSet s := by
  unfold wordSet
  rw [pyLower_idem]

theorem textSimilarity_comm (t1 t2 : String) : textSimilarity t1 t2 = textSimilarity t2 t1 := by
  unfold textSimilarity
  rw [Finset.inter_comm, Finset.union_comm]
  exact if_congr or_comm rfl rfl

theorem textSimilarity_pyLower_left (s t : String) :
    textSimilarity (pyLower s) t = textSimilarity s t := by
  unfold textSimilarity
  rw [wordSet_pyLower]

/-- A comment record as far as `_select_diverse` reads it (`comment.get("text", "")`). -/
structure SelComment where
  text : String
deriving DecidableEq

/-- The greedy loop of `_select_diverse`: `texts` is `selected_texts` (already
lower-cased); a candidate is kept iff no kept text has similarity above 0.6,
stopping once `top_n` comments are selected. -/
def diverseGo (n : ℕ) : List SelComment → List String → List SelComment
  | [], _ => []
  | c :: rest, texts =>
    if n ≤ texts.length then []
    else
      if texts.any (fun e => decide ((3:ℚ)/5 < textSimilarity (pyLower c.text) e)) then
        diverseGo n rest texts
      else
        c :: diverseGo n rest (texts ++ [pyLower c.text])

/-- `CommentSelector._select_diverse`.  Note the early return: a candidate
list of at most `top_n` comments is returned whole, with no diversity check. -/
def selectDiverse (comments : List SelComment) (top_n : ℕ) : List SelComment :=
  if comments.length ≤ top_n then comments
  else diverseGo top_n comments []

theorem diverseGo_mem_sim (n : ℕ) (l : List SelComment) :
    ∀ (texts : List String) (c : SelComment), c ∈ diverseGo n l texts →
      ∀ e ∈ texts, textSimilarity (pyLower c.text) e ≤ 3/5 := by
  induction l with
  | nil =>
    intro texts c hc
    simp [diverseGo] at hc
  | cons a rest ih =>
    intro texts c hc e he
    rw [diverseGo] at hc
    by_cases h1 : n ≤ texts.length
    · rw [if_pos h1] at hc
      simp at hc
    · rw [if_neg h1] at hc
      by_cases h2 : texts.any (fun e => decide ((3:ℚ)/5 < textSimilarity (pyLower a.text) e))
      · rw [if_pos h2] at hc
        exact ih texts c hc e he
      · rw [if_neg h2] at hc
        rcases List.mem_cons.mp hc with hca | hcr
        · subst hca
          simp only [List.any_eq_true, decide_eq_true_eq, not_exists, not_and] at h2
          have := fun hx => h2 e hx
          exact not_lt.mp (this he)
        · exact ih (texts ++ [pyLower a.text]) c hcr e (List.mem_append_left _ he)

theorem diverseGo_pairwise (n : ℕ) (l : List SelComment) :
    ∀ texts : List String, (diverseGo n l texts).Pairwise
      (fun a b => textSimilarity (pyLower b.text) (pyLower a.text) ≤ 3/5) := by
  induction l with
  | nil =>
    intro texts
    simp [diverseGo]
  | cons a rest ih =>
    intro texts
    rw [diverseGo]
    by_cases h1 : n ≤ texts.length
    · rw [if_pos h1]
      simp
    · rw [if_neg h1]
      by_cases h2 : texts.any (fun e => decide ((3:ℚ)/5 < textSimilarity (pyLower a.text) e))
      · rw [if_pos h2]
        exact ih texts
      · rw [if_neg h2]
        refine List.Pairwise.cons ?_ (ih _)
        intro b hb
        exact diverseGo_mem_sim n rest _ b hb (pyLower a.text)
          (List.mem_append_right _ (List.mem_singleton.mpr rfl))

/-- C3 counterexample: with a candidate list of length ≤ `top_n`,
`_select_diverse` returns it unchecked — here two identical comments
(similarity 1 > 0.6) are both returned for `top_n = 2`. -/
theorem C3_counterexample :
    selectDiverse [⟨"hello world"⟩, ⟨"hello world"⟩] 2 = [⟨"hello world"⟩, ⟨"hello world"⟩] ∧
    textSimilarity "hello world" "hello world" = 1 ∧ ¬ ((1:ℚ) ≤ 3/5) := by
  refine ⟨rfl, ?_, by norm_num⟩
  rw [textSimilarity, if_neg (by decide)]
  rw [show (wordSet "hello world" ∩ wordSet "hello world").card = 2 from by decide,
    show (wordSet "hello world" ∪ wordSet "hello world").card = 2 from by decide]
  norm_num

/-- C3 (amended): whenever the scored candidate list is strictly longer than
`top_n`, `_select_diverse` never returns two comments whose lower-cased
word-set intersection-over-union similarity exceeds 0.6; when the list has at
most `top_n` entries it is returned whole, with no diversity guarantee. -/
theorem C3_select_diverse_amended :
    (∀ (comments : List SelComment) (n : ℕ), n < comments.length →
      (selectDiverse comments n).Pairwise
        (fun a b => ¬ (3:ℚ)/5 < textSimilarity a.text b.text)) ∧
    (∀ (comments : List SelComment) (n : ℕ), comments.length ≤ n →
      selectDiverse comments n = comments) := by
  constructor
  · intro comments n h
    unfold selectDiverse
    rw [if_neg (not_le.mpr h)]
    refine (diverseGo_pairwise n comments []).imp ?_
    intro a b hab
    rw [textSimilarity_pyLower_left, textSimilarity_comm b.text,
      textSimilarity_pyLower_left] at hab
    exact not_lt.mpr hab
  · intro comments n h
    unfold selectDiverse
    rw [if_pos h]

/-- Witness for `C3_select_diverse_amended` at concrete inputs. -/
theorem C3_select_diverse_amended_witness :
    (selectDiverse [⟨"omo correct vibes"⟩, ⟨"pure wahala scenes"⟩] 1).Pairwise
      (fun a b => ¬ (3:ℚ)/5 < textSimilarity a.text b.text) ∧
    selectDiverse [⟨"omo"⟩] 5 = [⟨"omo"⟩] :=
  ⟨C3_select_diverse_amended.1 [⟨"omo correct vibes"⟩, ⟨"pure wahala scenes"⟩] 1 (by norm_num),
   C3_select_diverse_amended.2 [⟨"omo"⟩] 5 (by norm_num)⟩

/-! ## Aggregator statistics and controversy score (`analysis_pipeline.py`)

`_calculate_stats` computes per-class counts, percentages rounded to one
decimal, and averages rounded to three decimals; `_calculate_controversy_score`
blends the percentage balance with the toxicity factor.  `AnComment` carries
the fields the two functions read. -/

structure AnComment where
  sentiment : String
  sentiment_score : ℚ
  toxicity_score : ℚ
deriving DecidableEq

structure PStats where
  total : ℕ
  positive_count : ℕ
  negative_count : ℕ
  neutral_count : ℕ
  positive_pct : ℚ
  negative_pct : ℚ
  neutral_pct : ℚ
  avg_sentiment : ℚ
  avg_toxicity : ℚ

def calculateStats (cs : List AnComment) : PStats :=
  if cs.length = 0 then ⟨0, 0, 0, 0, 0, 0, 0, 0, 0⟩
  else
    let total := cs.length
    let positive := (cs.filter (fun c => c.sentiment = "positive")).length
    let negative := (cs.filter (fun c => c.sentiment = "negative")).length
    let neutral := total - positive - negative
    let avg_sentiment := (cs.map (fun c => c.sentiment_score)).sum / total
    let avg_toxicity := (cs.map (fun c => c.toxicity_score)).sum / total
    ⟨total, positive, negative, neutral,
     pyRound 1 ((positive : ℚ) / total * 100),
     pyRound 1 ((negative : ℚ) / total * 100),
     pyRound 1 ((neutral : ℚ) / total * 100),
     pyRound 3 avg_sentiment, pyRound 3 avg_toxicity⟩

def calculateControversyScore (s : PStats) : ℚ :=
  if s.total = 0 then 0
  else
    let positive_ratio := s.positive_pct / 100
    let negative_ratio := s.negative_pct / 100
    let balance := 1 - |positive_ratio - negative_ratio|
    let toxicity_factor := s.avg_toxicity * (1/2)
    pyRound 2 (min ((balance * (7/10) + toxicity_factor * (3/10)) * 100) 100)

def controversySpecFormula (s : PStats) : ℚ :=
  pyRound 2 (min 100 (((1 - |s.positive_pct - s.negative_pct| / 100) * (7/10)
    + (s.avg_toxicity * (1/2)) * (3/10)) * 100))

theorem calculateStats_total (cs : List AnComment) : (calculateStats cs).total = cs.length := by
  simp only [calculateStats]
  split
  case isTrue h => simp [h]
  case isFalse h => rfl

theorem controversy_eq_spec (s : PStats) (h : s.total ≠ 0) :
    calculateControversyScore s = controversySpecFormula s := by
  simp only [calculateControversyScore, controversySpecFormula]
  rw [if_neg h, min_comm]
  congr 2
  rw [show s.positive_pct / 100 - s.negative_pct / 100
      = (s.positive_pct - s.negative_pct) / 100 from (sub_div _ _ _).symm,
    abs_div, show |(100:ℚ)| = 100 from by norm_num]

def exPos : AnComment := ⟨"positive", 4/5, 1/10⟩
def exNeg : AnComment := ⟨"negative", -(7/10), 1/10⟩
def exNeu : AnComment := ⟨"neutral", 0, 1/10⟩

/-- 1,000 comments: 600 positive, 150 negative, 250 neutral, toxicity 0.1 each. -/
def example1000 : List AnComment :=
  List.replicate 600 exPos ++ List.replicate 150 exNeg ++ List.replicate 250 exNeu

theorem example1000_length : example1000.length = 1000 := by
  simp only [example1000, List.length_append, List.length_replicate]

theorem example1000_pos : (example1000.filter (fun c => c.sentiment = "positive")).length = 600 := by
  simp only [example1000, List.filter_append, List.filter_replicate, exPos, exNeg, exNeu,
    List.length_append]
  simp only [decide_eq_true_eq, eq_self_iff_true, if_true]
  rw [if_neg (show ¬("negative" = "positive") by decide),
    if_neg (show ¬("neutral" = "positive") by decide)]
  simp only [List.length_replicate, List.length_nil]

theorem example1000_neg : (example1000.filter (fun c => c.sentiment = "negative")).length = 150 := by
  simp only [example1000, List.filter_append, List.filter_replicate, exPos, exNeg, exNeu,
    List.length_append]
  simp only [decide_eq_true_eq, eq_self_iff_true, if_true]
  rw [if_neg (show ¬("positive" = "negative") by decide),
    if_neg (show ¬("neutral" = "negative") by decide)]
  simp only [List.length_replicate, List.length_nil]

theorem example1000_tox : (example1000.map (fun c => c.toxicity_score)).sum = 100 := by
  simp only [example1000, List.map_append, List.map_replicate, List.sum_append,
    List.sum_replicate, exPos, exNeg, exNeu, nsmul_eq_mul]
  norm_num

theorem example1000_stats_ppct : (calculateStats example1000).positive_pct = 60 := by
  simp only [calculateStats]
  rw [if_neg (by rw [example1000_length]; norm_num)]
  simp only [example1000_pos, example1000_length]
  rw [pyRound_eq_self_of_int 1 _ 600 (by norm_num)]
  norm_num

theorem example1000_stats_npct : (calculateStats example1000).negative_pct = 15 := by
  simp only [calculateStats]
  rw [if_neg (by rw [example1000_length]; norm_num)]
  simp only [example1000_neg, example1000_length]
  rw [pyRound_eq_self_of_int 1 _ 150 (by norm_num)]
  norm_num

theorem example1000_stats_tox : (calculateStats example1000).avg_toxicity = 1/10 := by
  simp only [calculateStats]
  rw [if_neg (by rw [example1000_length]; norm_num)]
  simp only [example1000_tox, example1000_length]
  rw [pyRound_eq_self_of_int 3 _ 100 (by norm_num)]
  norm_num

theorem example1000_stats_total : (calculateStats example1000).total = 1000 := by
  rw [calculateStats_total, example1000_length]

theorem controversy_example_eval : calculateControversyScore (calculateStats example1000) = 40 := by
  simp only [calculateControversyScore]
  rw [if_neg (by rw [example1000_stats_total]; norm_num)]
  rw [example1000_stats_ppct, example1000_stats_npct, example1000_stats_tox]
  rw [show |(60:ℚ)/100 - 15/100| = 45/100 from by rw [abs_of_nonneg (by norm_num)]; norm_num]
  rw [show ((1 - (45:ℚ)/100) * (7/10) + 1/10 * (1/2) * (3/10)) * 100 ⊓ 100 = 40 from by
    rw [min_eq_left (by norm_num)]; norm_num]
  rw [pyRound_eq_self_of_int 2 _ 4000 (by norm_num)]

/-- C4: for every non-empty analyzed comment set the controversy score equals
`round(min(100, (balance*0.7 + toxicityFactor*0.3)*100), 2)` with
`balance = 1 - |positivePct - negativePct|/100` and
`toxicityFactor = averageToxicity * 0.5`; and the 1,000-comment example
(600 positive / 150 negative / 250 neutral, average toxicity 0.1) scores
exactly 40. -/
theorem C4_controversy_score :
    (∀ cs : List AnComment, cs ≠ [] →
      calculateControversyScore (calculateStats cs) = controversySpecFormula (calculateStats cs)) ∧
    calculateControversyScore (calculateStats example1000) = 40 := by
  constructor
  · intro cs h
    refine controversy_eq_spec _ ?_
    rw [calculateStats_total]
    simpa using (List.length_pos.mpr h).ne'
  · exact controversy_example_eval

/-- Witness for `C4_controversy_score` at a concrete one-element input. -/
theorem C4_controversy_score_witness :
    calculateControversyScore (calculateStats [⟨"positive", 1, 0⟩]) =
      controversySpecFormula (calculateStats [⟨"positive", 1, 0⟩]) :=
  C4_controversy_score.1 [⟨"positive", 1, 0⟩] (by simp)

/-! ## Local sentiment classifier (`cost_effective_analyzer.py`, `_local_sentiment`)

Signals: Nigerian-pidgin lexicon hits (Python substring containment `word in
text_lower`), per-polarity emoji character counts (the regex character
classes, one entry per code point), and a TextBlob polarity threshold.  The
TextBlob polarity is an external library value and is taken as the `blob`
parameter (0 when TextBlob is unavailable or raises). -/

def NAIJA_POSITIVE : List String :=
  ["omo", "correct", "sha", "e sweet", "mad o", "fire", "goat", "legend",
   "king", "queen", "boss", "oga", "chairman", "dey reign", "no cap",
   "sabi", "better", "sweet", "valid", "001", "30bg", "odogwu", "baddest",
   "amen", "congrats", "proud", "love", "best", "greatest", "win", "winner"]
def NAIJA_NEGATIVE : List String :=
  ["werey", "mumu", "ode", "olodo", "yeye", "craze", "foolish", "fake",
   "clout", "chasing", "cap", "lie", "liar", "shame", "fall", "fail",
   "rubbish", "nonsense", "trash", "hate", "worst", "bad", "terrible"]
def positiveEmojiChars : List Char :=
  ['🔥', '💯', '❤', '️', '😍', '🙌', '👏', '✨', '💪', '🏆', '👑', '🐐', '💕', '🎉', '😊', '👍']
def negativeEmojiChars : List Char :=
  ['😡', '🤮', '👎', '💩', '🖕', '😤', '😠', '🤡', '💔']

def naijaPositiveCount (t : String) : ℕ :=
  NAIJA_POSITIVE.countP (fun w => decide (List.IsInfix w.data (pyLower t).data))
def naijaNegativeCount (t : String) : ℕ :=
  NAIJA_NEGATIVE.countP (fun w => decide (List.IsInfix w.data (pyLower t).data))
def positiveEmojiCount (t : String) : ℕ := t.data.countP (fun c => decide (c ∈ positiveEmojiChars))
def negativeEmojiCount (t : String) : ℕ := t.data.countP (fun c => decide (c ∈ negativeEmojiChars))

def positiveSignals (t : String) (blob : ℚ) : ℕ :=
  naijaPositiveCount t + positiveEmojiCount t + (if 1/5 < blob then 1 else 0)
def negativeSignals (t : String) (blob : ℚ) : ℕ :=
  naijaNegativeCount t + negativeEmojiCount t + (if blob < -(1/5) then 1 else 0)

structure LocalSentiment where
  sentiment : String
  sentiment_score : ℚ
  toxicity_score : ℚ
deriving DecidableEq

def localSentiment (t : String) (blob : ℚ) : LocalSentiment :=
  let p := positiveSignals t blob
  let n := negativeSignals t blob
  let tox := pyRound 2 (min ((n : ℚ) * (1/5)) 1)
  if n + 1 < p then
    ⟨"positive", pyRound 2 (min ((1:ℚ)/2 + p * (1/10)) 1), tox⟩
  else if p + 1 < n then
    ⟨"negative", pyRound 2 (max (-(1:ℚ)/2 - n * (1/10)) (-1)), tox⟩
  else
    ⟨"neutral", pyRound 2 (blob * (1/2)), tox⟩

theorem round2_min_half (p : ℕ) :
    pyRound 2 (min ((1:ℚ)/2 + p * (1/10)) 1) = min ((1:ℚ)/2 + p * (1/10)) 1 := by
  refine pyRound_eq_self_of_int 2 _ (min (50 + 10 * (p:ℤ)) 100) ?_
  rw [min_mul_of_nonneg _ _ (by norm_num : (0:ℚ) ≤ 10^2)]
  push_cast
  congr 1 <;> ring

theorem round2_min_fifth (n : ℕ) :
    pyRound 2 (min ((n:ℚ) * (1/5)) 1) = min ((n:ℚ) * (1/5)) 1 := by
  refine pyRound_eq_self_of_int 2 _ (min (20 * (n:ℤ)) 100) ?_
  rw [min_mul_of_nonneg _ _ (by norm_num : (0:ℚ) ≤ 10^2)]
  push_cast
  congr 1 <;> ring

theorem round2_max_neg (n : ℕ) :
    pyRound 2 (max (-(1:ℚ)/2 - n * (1/10)) (-1)) = max (-(1:ℚ)/2 - n * (1/10)) (-1) := by
  refine pyRound_eq_self_of_int 2 _ (max (-(50 + 10 * (n:ℤ))) (-100)) ?_
  rw [max_mul_of_nonneg _ _ (by norm_num : (0:ℚ) ≤ 10^2)]
  push_cast
  congr 1 <;> ring

theorem clamp_pos_eq (p : ℕ) :
    max (-1) (min ((1:ℚ)/2 + p * (1/10)) 1) = min ((1:ℚ)/2 + p * (1/10)) 1 := by
  refine max_eq_right (le_min ?_ (by norm_num))
  have : (0:ℚ) ≤ p * (1/10) := by positivity
  linarith

theorem neg_code_eq_clamp (n : ℕ) :
    max (-(1:ℚ)/2 - n * (1/10)) (-1) = -(max (-1) (min ((1:ℚ)/2 + n * (1/10)) 1)) := by
  rw [clamp_pos_eq n]
  rw [show (-(1:ℚ)/2 - n * (1/10)) = -((1:ℚ)/2 + n * (1/10)) from by ring,
    show ((-1):ℚ) = -(1:ℚ) from rfl, max_neg_neg]

theorem tox_clamp_eq (n : ℕ) :
    min ((n:ℚ) * (1/5)) 1 = max 0 (min ((n:ℚ) * (1/5)) 1) :=
  (max_eq_right (le_min (by positivity) (by norm_num))).symm

/-- C5 (amended): the classification rule is exactly as claimed (positive iff
`positiveSignals > negativeSignals + 1`, negative iff the reverse, else
neutral); the non-neutral sentiment scores and the toxicity score equal the
claimed clamp formulas exactly (the 2-decimal rounding the code applies is a
no-op there); only the neutral sentiment score differs from the claim: it is
`round(0.5 * blobScore, 2)`, not `0.5 * blobScore`. -/
theorem C5_local_sentiment_amended :
    ∀ (t : String) (blob : ℚ),
      ((localSentiment t blob).sentiment = "positive" ↔
        negativeSignals t blob + 1 < positiveSignals t blob) ∧
      ((localSentiment t blob).sentiment = "negative" ↔
        positiveSignals t blob + 1 < negativeSignals t blob) ∧
      ((localSentiment t blob).sentiment = "neutral" ↔
        (¬ negativeSignals t blob + 1 < positiveSignals t blob ∧
         ¬ positiveSignals t blob + 1 < negativeSignals t blob)) ∧
      (negativeSignals t blob + 1 < positiveSignals t blob →
        (localSentiment t blob).sentiment_score
          = max (-1) (min ((1:ℚ)/2 + positiveSignals t blob * (1/10)) 1)) ∧
      (positiveSignals t blob + 1 < negativeSignals t blob →
        (localSentiment t blob).sentiment_score
          = -(max (-1) (min ((1:ℚ)/2 + negativeSignals t blob * (1/10)) 1))) ∧
      (¬ negativeSignals t blob + 1 < positiveSignals t blob →
       ¬ positiveSignals t blob + 1 < negativeSignals t blob →
        (localSentiment t blob).sentiment_score = pyRound 2 (blob * (1/2))) ∧
      ((localSentiment t blob).toxicity_score
        = max 0 (min ((negativeSignals t blob : ℚ) * (1/5)) 1)) := by
  intro t blob
  simp only [localSentiment]
  by_cases h1 : negativeSignals t blob + 1 < positiveSignals t blob
  · rw [if_pos h1]
    have h2 : ¬ positiveSignals t blob + 1 < negativeSignals t blob := by omega
    refine ⟨iff_of_true rfl h1, iff_of_false (by simp) h2,
      iff_of_false (by simp) (fun hc => hc.1 h1),
      fun _ => ?_, fun hh => absurd hh h2, fun hn1 _ => absurd h1 hn1, ?_⟩
    · rw [round2_min_half]
      exact (clamp_pos_eq _).symm
    · rw [round2_min_fifth]
      exact tox_clamp_eq _
  · rw [if_neg h1]
    by_cases h2 : positiveSignals t blob + 1 < negativeSignals t blob
    · rw [if_pos h2]
      refine ⟨iff_of_false (by simp) h1, iff_of_true rfl h2,
        iff_of_false (by simp) (fun hc => hc.2 h2),
        fun hh => absurd hh h1, fun _ => ?_, fun _ hn2 => absurd h2 hn2, ?_⟩
      · rw [round2_max_neg]
        exact neg_code_eq_clamp _
      · rw [round2_min_fifth]
        exact tox_clamp_eq _
    · rw [if_neg h2]
      refine ⟨iff_of_false (by simp) h1, iff_of_false (by simp) h2,
        iff_of_true rfl ⟨h1, h2⟩,
        fun hh => absurd hh h1, fun hh => absurd hh h2, fun _ _ => rfl, ?_⟩
      rw [round2_min_fifth]
      exact tox_clamp_eq _

theorem pos_signals_empty : positiveSignals "" (123/1000) = 0 := by
  simp only [positiveSignals]
  rw [if_neg (by norm_num), show naijaPositiveCount "" = 0 from by decide,
    show positiveEmojiCount "" = 0 from by decide]

theorem neg_signals_empty : negativeSignals "" (123/1000) = 0 := by
  simp only [negativeSignals]
  rw [if_neg (by norm_num), show naijaNegativeCount "" = 0 from by decide,
    show negativeEmojiCount "" = 0 from by decide]

/-- C5 counterexample: on the empty text with TextBlob polarity 0.123 the
classifier returns a neutral sentiment score of `round(0.0615, 2) = 0.06`,
not the claimed `0.5 * 0.123 = 0.0615`. -/
theorem C5_counterexample :
    (localSentiment "" (123/1000)).sentiment = "neutral" ∧
    (localSentiment "" (123/1000)).sentiment_score = 3/50 ∧
    (3:ℚ)/50 ≠ (1/2) * (123/1000) := by
  have hs : localSentiment "" (123/1000)
      = ⟨"neutral", pyRound 2 ((123:ℚ)/1000 * (1/2)),
         pyRound 2 (min ((negativeSignals "" (123/1000) : ℚ) * (1/5)) 1)⟩ := by
    simp only [localSentiment, pos_signals_empty, neg_signals_empty]
    rw [if_neg (by omega), if_neg (by omega)]
  refine ⟨by rw [hs], ?_, by norm_num⟩
  rw [hs]
  show pyRound 2 ((123:ℚ)/1000 * (1/2)) = 3/50
  rw [show (123:ℚ)/1000 * (1/2) = 123/2000 from by norm_num]
  unfold pyRound pyRoundInt
  norm_num

theorem werey_pos_signals : positiveSignals "werey mumu ode" 0 = 0 := by
  simp only [positiveSignals]
  rw [if_neg (by norm_num), show naijaPositiveCount "werey mumu ode" = 0 from by decide,
    show positiveEmojiCount "werey mumu ode" = 0 from by decide]

theorem werey_neg_signals : negativeSignals "werey mumu ode" 0 = 3 := by
  simp only [negativeSignals]
  rw [if_neg (by norm_num), show naijaNegativeCount "werey mumu ode" = 3 from by decide,
    show negativeEmojiCount "werey mumu ode" = 0 from by decide]

/-- Witness for `C5_local_sentiment_amended` at a concrete input. -/
theorem C5_local_sentiment_amended_witness :
    (localSentiment "werey mumu ode" 0).sentiment = "negative" ∧
    (localSentiment "werey mumu ode" 0).toxicity_score
      = max 0 (min ((negativeSignals "werey mumu ode" 0 : ℚ) * (1/5)) 1) :=
  ⟨(C5_local_sentiment_amended "werey mumu ode" 0).2.1.mpr
      (by rw [werey_pos_signals, werey_neg_signals]; omega),
   (C5_local_sentiment_amended "werey mumu ode" 0).2.2.2.2.2.2⟩

/-! ## Backoff controller (`robust_scraper.py`, `_handle_rate_limit` / `_reset_backoff`)

State: `_current_backoff` (reset to `delay_after_rate_limit`, never changed by
failures) and `_consecutive_errors`.  The random `random.uniform(0,
backoff*0.2)` draw is modelled by a jitter fraction parameter in [0, 1].
`_handle_rate_limit` returns (total wait, should-continue flag, new state);
the flag is False once the incremented failure count reaches `max_retries`. -/

structure BackoffConfig where
  base : ℚ
  cap : ℚ
  multiplier : ℚ
  maxRetries : ℕ

structure BackoffState where
  current_backoff : ℚ
  consecutive_errors : ℕ

def defaultBackoffConfig : BackoffConfig := ⟨60, 900, 2, 10⟩

def initialBackoffState (cfg : BackoffConfig) : BackoffState := ⟨cfg.base, 0⟩

def handleRateLimit (cfg : BackoffConfig) (st : BackoffState) (jitterFrac : ℚ) :
    ℚ × Bool × BackoffState :=
  let errors := st.consecutive_errors + 1
  let backoff := min (st.current_backoff * cfg.multiplier ^ (errors - 1)) cfg.cap
  let jitter := jitterFrac * (backoff * (1/5))
  let totalWait := backoff + jitter
  (totalWait, decide (errors < cfg.maxRetries), { st with consecutive_errors := errors })

def resetBackoff (cfg : BackoffConfig) (_st : BackoffState) : BackoffState :=
  { current_backoff := cfg.base, consecutive_errors := 0 }

/-- C6 counterexample: `_handle_rate_limit` caps the backoff BEFORE adding
jitter, so the returned wait can exceed the cap.  At the 5th consecutive
failure with default config (base 60, multiplier 2, cap 900) and maximal
jitter, the code waits 900 + 180 = 1080, while the claimed formula
`min(base*multiplier^(failures-1) + jitter, cap)` gives 900. -/
theorem C6_counterexample :
    (handleRateLimit defaultBackoffConfig ⟨60, 4⟩ 1).1 = 1080 ∧
    min ((60:ℚ) * 2 ^ 4 + 180) 900 = 900 ∧ ((1080:ℚ) ≠ 900) := by
  refine ⟨?_, by rw [min_eq_right (by norm_num)], by norm_num⟩
  simp only [handleRateLimit, defaultBackoffConfig]
  norm_num

/-- C6 (amended): `onFailure` returns
`min(base*multiplier^(failures-1), cap) + jitter` with jitter in
[0, 20% of the CAPPED backoff] (the cap is applied before the jitter is
added, so the total may exceed the cap by up to 20%); consecutive waits are
non-decreasing while the pre-jitter backoff stays below the cap (for any
multiplier ≥ 1.2, which covers the default 2); and one `onSuccess`
(`_reset_backoff`) resets the failure counter to 0 and the base so that the
next wait is the floor `min(base, cap)` plus jitter. -/
theorem C6_backoff_amended :
    (∀ (cfg : BackoffConfig) (st : BackoffState) (j : ℚ),
      (handleRateLimit cfg st j).1
        = min (st.current_backoff * cfg.multiplier ^ st.consecutive_errors) cfg.cap
          + j * (min (st.current_backoff * cfg.multiplier ^ st.consecutive_errors) cfg.cap
              * (1/5))) ∧
    (∀ (cfg : BackoffConfig) (st : BackoffState) (j1 j2 : ℚ),
      0 ≤ st.current_backoff → 0 ≤ cfg.cap → 6/5 ≤ cfg.multiplier →
      0 ≤ j1 → j1 ≤ 1 → 0 ≤ j2 →
      st.current_backoff * cfg.multiplier ^ (st.consecutive_errors + 1) ≤ cfg.cap →
      (handleRateLimit cfg st j1).1
        ≤ (handleRateLimit cfg (handleRateLimit cfg st j1).2.2 j2).1) ∧
    (∀ (cfg : BackoffConfig) (st : BackoffState),
      (resetBackoff cfg st).consecutive_errors = 0 ∧
      (resetBackoff cfg st).current_backoff = cfg.base ∧
      ∀ j : ℚ, (handleRateLimit cfg (resetBackoff cfg st) j).1
        = min cfg.base cfg.cap + j * (min cfg.base cfg.cap * (1/5))) := by
  refine ⟨?_, ?_, ?_⟩
  · intro cfg st j
    simp [handleRateLimit]
  · intro cfg st j1 j2 hb hcap hm hj1 hj1' hj2 hnext
    simp only [handleRateLimit, Nat.add_sub_cancel]
    have hm0 : (0:ℚ) ≤ cfg.multiplier := by linarith
    set b := st.current_backoff with hbdef
    set m := cfg.multiplier with hmdef
    set e := st.consecutive_errors with hedef
    have hpow : (0:ℚ) ≤ b * m ^ e := by positivity
    have hA0 : (0:ℚ) ≤ min (b * m ^ e) cfg.cap := le_min hpow hcap
    have hA_le : min (b * m ^ e) cfg.cap ≤ b * m ^ e := min_le_left _ _
    have hA' : min (b * m ^ (e + 1)) cfg.cap = b * m ^ (e + 1) := min_eq_left hnext
    have hsucc : b * m ^ (e + 1) = m * (b * m ^ e) := by ring
    have hjle : j1 * (min (b * m ^ e) cfg.cap * (1/5)) ≤ min (b * m ^ e) cfg.cap * (1/5) := by
      apply mul_le_of_le_one_left _ hj1'
      positivity
    have hA2 : (0:ℚ) ≤ min (b * m ^ (e + 1)) cfg.cap * (1/5) := by positivity
    have hj2A : 0 ≤ j2 * (min (b * m ^ (e + 1)) cfg.cap * (1/5)) := mul_nonneg hj2 hA2
    have step : (6:ℚ)/5 * min (b * m ^ e) cfg.cap ≤ m * (b * m ^ e) := by
      calc (6:ℚ)/5 * min (b * m ^ e) cfg.cap ≤ 6/5 * (b * m ^ e) := by
            apply mul_le_mul_of_nonneg_left hA_le (by norm_num)
        _ ≤ m * (b * m ^ e) := mul_le_mul_of_nonneg_right hm hpow
    rw [hA', hsucc] at *
    linarith
  · intro cfg st
    refine ⟨rfl, rfl, ?_⟩
    intro j
    simp [handleRateLimit, resetBackoff]

/-- Witness for `C6_backoff_amended` at the default configuration. -/
theorem C6_backoff_amended_witness :
    (handleRateLimit defaultBackoffConfig (initialBackoffState defaultBackoffConfig) 1).1
      ≤ (handleRateLimit defaultBackoffConfig
          (handleRateLimit defaultBackoffConfig
            (initialBackoffState defaultBackoffConfig) 1).2.2 0).1 :=
  C6_backoff_amended.2.1 defaultBackoffConfig (initialBackoffState defaultBackoffConfig) 1 0
    (by norm_num [initialBackoffState, defaultBackoffConfig])
    (by norm_num [defaultBackoffConfig])
    (by norm_num [defaultBackoffConfig])
    (by norm_num) (by norm_num) (by norm_num)
    (by norm_num [initialBackoffState, defaultBackoffConfig])

/-! ## Rate governor (`rate_limiter.py`, `RateLimiter.wait_if_needed`)

Modelled on the Redis-backed counter path: the hourly/daily counts read from
the store, the seconds remaining until the next hour / next day, and the
optional global-backoff remainder are explicit parameters.  The result
records the sleeps performed and whether `RateLimitExceeded` was raised. -/

def rateLimiterDefaultMaxPerHour : ℕ := 100
def rateLimiterDefaultMaxPerDay : ℕ := 500

inductive RLOutcome
  | ok
  | dailyLimitExceeded (waitSeconds : ℚ)
deriving DecidableEq

structure WaitResult where
  sleeps : List ℚ
  outcome : RLOutcome
deriving DecidableEq

def wait_if_needed (maxPerHour maxPerDay : ℕ) (backoffRemaining : Option ℚ)
    (redisAvailable : Bool) (hourCount dayCount : ℕ)
    (secsToNextHour secsToTomorrow : ℚ) : WaitResult :=
  let s0 : List ℚ := match backoffRemaining with
    | some w => [w]
    | none => []
  if redisAvailable then
    if maxPerDay ≤ dayCount then ⟨s0, .dailyLimitExceeded secsToTomorrow⟩
    else if maxPerHour ≤ hourCount then ⟨s0 ++ [min secsToNextHour 300], .ok⟩
    else ⟨s0, .ok⟩
  else ⟨s0, .ok⟩

/-- C7 counterexample: `RateLimiter.__init__` defaults to 100 requests per
hour, not the claimed 200; and at the hourly ceiling with 1800 s left in the
hour, `wait_if_needed` sleeps only `min(1800, 300) = 300` seconds once and
returns, leaving the recorded hourly counter still at the ceiling — it does
not suspend until the counter is below the ceiling. -/
theorem C7_counterexample :
    rateLimiterDefaultMaxPerHour = 100 ∧ rateLimiterDefaultMaxPerHour ≠ 200 ∧
    wait_if_needed rateLimiterDefaultMaxPerHour rateLimiterDefaultMaxPerDay none true 100 0 1800 3600
      = ⟨[min 1800 300], .ok⟩ ∧
    min (1800:ℚ) 300 = 300 ∧ ((300:ℚ) < 1800) :=
  ⟨rfl, by norm_num [rateLimiterDefaultMaxPerHour], rfl,
   min_eq_right (by norm_num), by norm_num⟩

/-- C7 (amended): with Redis available and no global backoff pending,
`wait_if_needed` raises `RateLimitExceeded` (carrying the seconds until
tomorrow) without sleeping exactly when the daily count has reached the daily
ceiling (default 500); when only the hourly ceiling (default 100 per hour,
not 200) is reached it sleeps `min(seconds to the next hour, 300)` once and
returns, with no guarantee the hourly counter is below the ceiling;
otherwise it neither sleeps nor raises. -/
theorem C7_rate_governor_amended :
    ∀ (mh md hc dc : ℕ) (snh stm : ℚ),
      (md ≤ dc →
        wait_if_needed mh md none true hc dc snh stm = ⟨[], .dailyLimitExceeded stm⟩) ∧
      (¬ md ≤ dc → mh ≤ hc →
        wait_if_needed mh md none true hc dc snh stm = ⟨[min snh 300], .ok⟩) ∧
      (¬ md ≤ dc → ¬ mh ≤ hc →
        wait_if_needed mh md none true hc dc snh stm = ⟨[], .ok⟩) ∧
      rateLimiterDefaultMaxPerHour = 100 ∧ rateLimiterDefaultMaxPerDay = 500 := by
  intro mh md hc dc snh stm
  refine ⟨?_, ?_, ?_, rfl, rfl⟩
  · intro h
    simp only [wait_if_needed, if_pos h, if_true]
  · intro hd hh
    simp only [wait_if_needed, if_neg hd, if_pos hh, if_true]
    rfl
  · intro hd hh
    simp only [wait_if_needed, if_neg hd, if_neg hh, if_true]

/-- Witness for `C7_rate_governor_amended` at concrete inputs. -/
theorem C7_rate_governor_amended_witness :
    wait_if_needed 100 500 none true 0 500 10 20 = ⟨[], .dailyLimitExceeded 20⟩ ∧
    wait_if_needed 100 500 none true 100 0 10 20 = ⟨[min 10 300], .ok⟩ :=
  ⟨(C7_rate_governor_amended 100 500 0 500 10 20).1 (by norm_num),
   (C7_rate_governor_amended 100 500 100 0 10 20).2.1 (by norm_num) (by norm_num)⟩

/-! ## Harvester page loop (`robust_scraper.py`, `scrape_all_comments`)

The `while has_next` loop is modelled as a transition system over the
observable per-iteration outcomes of the page fetch (`FetchEvent`).  A run
consumes events until a terminal outcome; running out of events while the
loop would continue models a crash/interruption mid-harvest.  `saves`
records the comment count at each `_save_checkpoint` call; the final
checkpoint save of every terminal path (including the `except` handler) is
`finalSave`.  The wall-clock budget check (`max_scrape_time_hours`, default
0 = unlimited) is not modelled. -/

inductive FetchEvent
  | pageOk (newComments : ℕ) (hasNextPage : Bool) (endCursor : Option String)
  | emptyPage
  | rateLimited
  | httpOther
  | apiError
  | timeoutErr
  | networkErr
  | http401
  | fatalErr
deriving DecidableEq

structure HConfig where
  checkpointInterval : ℕ
  maxRetries : ℕ
  maxComments : ℕ
deriving DecidableEq

def defaultHConfig : HConfig := ⟨500, 10, 0⟩

structure HState where
  comments : ℕ
  cursor : Option String
  lastCkpt : ℕ
  errors : ℕ
  hasNext : Bool
  saves : List ℕ
deriving DecidableEq

def initialHState : HState := ⟨0, none, 0, 0, true, []⟩

inductive ExitReason
  | noMorePages | maxReached | aborted | authExpired | fatalError
deriving DecidableEq

inductive HRes
  | finished (r : ExitReason)
  | crashed
deriving DecidableEq

def isRecoverable : FetchEvent → Bool
  | .rateLimited | .httpOther | .apiError | .timeoutErr | .networkErr => true
  | _ => false

def recovStep (cfg : HConfig) (st : HState) : HState × Option ExitReason :=
  ({ st with errors := st.errors + 1 },
   if cfg.maxRetries ≤ st.errors + 1 then some .aborted else none)

def hstep (cfg : HConfig) (st : HState) : FetchEvent → HState × Option ExitReason
  | .pageOk n hn cur =>
    let st1 : HState :=
      { st with errors := 0, comments := st.comments + n, hasNext := hn, cursor := cur }
    if cfg.checkpointInterval ≤ st1.comments - st1.lastCkpt then
      ({ st1 with saves := st1.saves ++ [st1.comments], lastCkpt := st1.comments }, none)
    else (st1, none)
  | .emptyPage => ({ st with errors := 0, hasNext := false }, some .noMorePages)
  | .http401 => (st, some .authExpired)
  | .fatalErr => (st, some .fatalError)
  | .rateLimited => recovStep cfg st
  | .httpOther => recovStep cfg st
  | .apiError => recovStep cfg st
  | .timeoutErr => recovStep cfg st
  | .networkErr => recovStep cfg st

def finalSave (st : HState) : HState := { st with saves := st.saves ++ [st.comments] }

def hrun (cfg : HConfig) : HState → List FetchEvent → HState × HRes
  | st, evs =>
    if st.hasNext = false then (finalSave st, .finished .noMorePages)
    else if 0 < cfg.maxComments ∧ cfg.maxComments ≤ st.comments then
      (finalSave st, .finished .maxReached)
    else
      match evs with
      | [] => (st, .crashed)
      | ev :: rest =>
        match hstep cfg st ev with
        | (st2, some r) => (finalSave st2, .finished r)
        | (st2, none) => hrun cfg st2 rest

example :
    (hrun defaultHConfig initialHState [.pageOk 50 true (some "c1")]).2 = .crashed ∧
    (hrun defaultHConfig initialHState [.pageOk 50 true (some "c1")]).1.saves = [] ∧
    (hrun defaultHConfig initialHState [.pageOk 50 true (some "c1")]).1.comments = 50 :=
  ⟨rfl, rfl, rfl⟩

theorem hstep_pageOk_save (cfg : HConfig) (st : HState) (n : ℕ) (hn : Bool) (cur : Option String) :
    (cfg.checkpointInterval ≤ st.comments + n - st.lastCkpt →
      (hstep cfg st (.pageOk n hn cur)).1.saves = st.saves ++ [st.comments + n]) ∧
    (¬ cfg.checkpointInterval ≤ st.comments + n - st.lastCkpt →
      (hstep cfg st (.pageOk n hn cur)).1.saves = st.saves) := by
  constructor <;> intro h <;> simp [hstep, h]

theorem hrun_terminal_save (cfg : HConfig) :
    ∀ (evs : List FetchEvent) (st : HState),
      (hrun cfg st evs).2 ≠ .crashed →
      (hrun cfg st evs).1.saves.getLast? = some ((hrun cfg st evs).1.comments) := by
  intro evs
  induction evs with
  | nil =>
    intro st h
    rw [hrun] at h ⊢
    split_ifs at h ⊢ with h1 h2
    · simp [finalSave]
    · simp [finalSave]
    · simp at h
  | cons ev rest ih =>
    intro st h
    rw [hrun] at h ⊢
    split_ifs at h ⊢ with h1 h2
    · simp [finalSave]
    · simp [finalSave]
    · rcases hm : hstep cfg st ev with ⟨st2, r⟩
      cases r with
      | some r2 => simp [finalSave]
      | none =>
        rw [hm] at h
        exact ih st2 h

/-- C8: every recoverable failure during a page fetch (HTTP 429, a non-200
status other than the 401 auth rejection, an API error payload, a timeout, or
a network error) leaves the collected comment set, the pagination cursor and
the has-next flag unchanged, increments only the consecutive-error counter,
and the loop retries the same page (no exit) unless the incremented counter
has reached `max_retries`, in which case the harvest aborts. -/
theorem C8_recoverable_frame :
    ∀ (cfg : HConfig) (st : HState) (ev : FetchEvent), isRecoverable ev = true →
      (hstep cfg st ev).1.comments = st.comments ∧
      (hstep cfg st ev).1.cursor = st.cursor ∧
      (hstep cfg st ev).1.hasNext = st.hasNext ∧
      (hstep cfg st ev).1.errors = st.errors + 1 ∧
      (hstep cfg st ev).2
        = (if cfg.maxRetries ≤ st.errors + 1 then some ExitReason.aborted else none) := by
  intro cfg st ev h
  cases ev <;> simp_all [isRecoverable, hstep, recovStep]

/-- Witness for `C8_recoverable_frame` at a concrete recoverable event. -/
theorem C8_recoverable_frame_witness :
    (hstep defaultHConfig initialHState .rateLimited).1.comments = initialHState.comments ∧
    (hstep defaultHConfig initialHState .rateLimited).1.cursor = initialHState.cursor ∧
    (hstep defaultHConfig initialHState .rateLimited).1.hasNext = initialHState.hasNext ∧
    (hstep defaultHConfig initialHState .rateLimited).1.errors = initialHState.errors + 1 ∧
    (hstep defaultHConfig initialHState .rateLimited).2
      = (if defaultHConfig.maxRetries ≤ initialHState.errors + 1
          then some ExitReason.aborted else none) :=
  C8_recoverable_frame defaultHConfig initialHState .rateLimited rfl

/-- C1 counterexample: after one successfully parsed page of 50 comments the
loop performs NO checkpoint save (the periodic save fires only once
`checkpoint_interval = 500` new comments have accumulated), so a crash before
the next terminal outcome loses all 50 comments — more than one page of
work, and with no save after that successfully parsed page. -/
theorem C1_counterexample :
    (hrun defaultHConfig initialHState [.pageOk 50 true (some "c1")]).1.comments = 50 ∧
    (hrun defaultHConfig initialHState [.pageOk 50 true (some "c1")]).1.saves = [] ∧
    (hrun defaultHConfig initialHState [.pageOk 50 true (some "c1")]).2 = .crashed :=
  ⟨rfl, rfl, rfl⟩

/-- C1 (amended): the checkpoint save after a successfully parsed page is
invoked iff at least `checkpoint_interval` (default 500) comments have
accumulated since the last save — not after every page; every terminal
outcome (no more pages, comment cap reached, abort after retries, auth
rejection, fatal exception) ends with a final save recording the full
collected count, so a crash between pages loses at most the comments
gathered since the last periodic checkpoint (up to an interval's worth plus
the current page), not at most one page. -/
theorem C1_checkpoint_amended :
    (∀ (cfg : HConfig) (st : HState) (n : ℕ) (hn : Bool) (cur : Option String),
      (cfg.checkpointInterval ≤ st.comments + n - st.lastCkpt →
        (hstep cfg st (.pageOk n hn cur)).1.saves = st.saves ++ [st.comments + n]) ∧
      (¬ cfg.checkpointInterval ≤ st.comments + n - st.lastCkpt →
        (hstep cfg st (.pageOk n hn cur)).1.saves = st.saves)) ∧
    (∀ (cfg : HConfig) (evs : List FetchEvent) (st : HState),
      (hrun cfg st evs).2 ≠ .crashed →
      (hrun cfg st evs).1.saves.getLast? = some ((hrun cfg st evs).1.comments)) :=
  ⟨fun cfg st n hn cur => hstep_pageOk_save cfg st n hn cur,
   fun cfg evs st => hrun_terminal_save cfg evs st⟩

/-- Witness for `C1_checkpoint_amended` at concrete inputs. -/
theorem C1_checkpoint_amended_witness :
    (hstep defaultHConfig ⟨480, none, 0, 0, true, []⟩ (.pageOk 50 true none)).1.saves
      = [] ++ [480 + 50] ∧
    (hrun defaultHConfig initialHState [.emptyPage]).1.saves.getLast?
      = some ((hrun defaultHConfig initialHState [.emptyPage]).1.comments) :=
  ⟨(C1_checkpoint_amended.1 defaultHConfig ⟨480, none, 0, 0, true, []⟩ 50 true none).1
      (by decide),
   C1_checkpoint_amended.2 defaultHConfig [.emptyPage] initialHState (by decide)⟩

/-! ## Sampled model enhancer (`cost_effective_analyzer.py`, `enhance_with_claude`)

The prompt interpolation divides the per-class counts by `total` BEFORE the
`try:` block, so an empty comment list raises `ZeroDivisionError` instead of
reaching the remote call.  The remote call and the JSON parse of its response
are external; their outcome is the `EnhOutcome` parameter (`parsed` carries
the successfully parsed summary).  Every failure outcome falls through to
the deterministic fallback dict.  `fullAnalysis` models `full_analysis`,
whose own stats are guarded by `if total > 0` but whose enhancement call is
not. -/

structure EnhSummary where
  headline : String
  vibe_summary : String
  controversy_level : String
  themes : List String
  recommended_hashtags : List String
deriving DecidableEq

inductive EnhOutcome
  | callThrows
  | noJson
  | badJson
  | parsed (s : EnhSummary)
deriving DecidableEq

def fallbackSummary (celebrityName : String) (posCount total : ℕ) : EnhSummary :=
  { headline := celebrityName ++ " Post Enter Streets!",
    vibe_summary := "Analysis shows " ++ toString (pyRoundInt ((posCount : ℚ) / total * 100))
      ++ "% positive vibes!",
    controversy_level := "mid",
    themes := ["support", "love", "fans"],
    recommended_hashtags := ["NaijaCelebs", "Naija", "Lagos", "Nigeria", "Vibes"] }

def enhanceWithClaude (comments : List AnComment) (celebrityName : String)
    (outcome : EnhOutcome) : Except String EnhSummary :=
  let total := comments.length
  let posCount := (comments.filter (fun c => c.sentiment = "positive")).length
  if total = 0 then .error "ZeroDivisionError: division by zero"
  else
    match outcome with
    | .parsed s => .ok s
    | _ => .ok (fallbackSummary celebrityName posCount total)

structure CEStats where
  total : ℕ
  positive : ℕ
  negative : ℕ
  neutral : ℕ
  positive_pct : ℚ
  negative_pct : ℚ
  neutral_pct : ℚ
deriving DecidableEq

def ceStats (cs : List AnComment) : CEStats :=
  let total := cs.length
  let p := (cs.filter (fun c => c.sentiment = "positive")).length
  let n := (cs.filter (fun c => c.sentiment = "negative")).length
  let u := (cs.filter (fun c => c.sentiment = "neutral")).length
  ⟨total, p, n, u,
   if 0 < total then (p:ℚ)/total*100 else 0,
   if 0 < total then (n:ℚ)/total*100 else 0,
   if 0 < total then (u:ℚ)/total*100 else 0⟩

def fullAnalysis (cs : List AnComment) (celebrityName : String) (outcome : EnhOutcome) :
    Except String (CEStats × EnhSummary) :=
  (enhanceWithClaude cs celebrityName outcome).map (fun s => (ceStats cs, s))

theorem fallback_headline_ne (name : String) (p t : ℕ) :
    (fallbackSummary name p t).headline ≠ "" := by
  intro hEq
  have hlen : (fallbackSummary name p t).headline.length
      = name.length + (" Post Enter Streets!").length := String.length_append _ _
  rw [hEq, show (" Post Enter Streets!").length = 20 from rfl,
    show ("" : String).length = 0 from rfl] at hlen
  omega

/-- C9: whenever the remote model call throws, the response has no balanced
JSON region, or the JSON fails to parse, `enhance_with_claude` returns (does
not raise) the deterministic fallback object built from the local statistics,
and its headline `f"{celebrity_name} Post Enter Streets!"` is non-empty.
(The hypothesis `cs ≠ []` reflects that these failure outcomes presuppose the
remote call was reached, which requires the prompt formatting — and hence the
division by `total` — to have succeeded; see C10 for the empty case.) -/
theorem C9_enhancer_fallback :
    ∀ (cs : List AnComment) (name : String) (o : EnhOutcome),
      cs ≠ [] →
      (o = .callThrows ∨ o = .noJson ∨ o = .badJson) →
      enhanceWithClaude cs name o
        = .ok (fallbackSummary name
            (cs.filter (fun c => c.sentiment = "positive")).length cs.length) ∧
      (fallbackSummary name
        (cs.filter (fun c => c.sentiment = "positive")).length cs.length).headline ≠ "" := by
  intro cs name o hne ho
  have ht : ¬ cs.length = 0 := by
    simpa using (List.length_pos.mpr hne).ne'
  refine ⟨?_, fallback_headline_ne _ _ _⟩
  simp only [enhanceWithClaude, if_neg ht]
  rcases ho with h | h | h <;> subst h <;> rfl

/-- C10: `enhance_with_claude` (and therefore `full_analysis`) is total only
for non-empty comment lists: every non-empty input yields a summary object
for every outcome of the remote call, but the empty list raises
ZeroDivisionError while formatting the prompt (`pos_count/total*100` is not
guarded by a `total > 0` check there), and the same division occurs in the
fallback text. -/
theorem C10_enhancer_totality :
    (∀ (cs : List AnComment) (name : String) (o : EnhOutcome), cs ≠ [] →
      ∃ s, enhanceWithClaude cs name o = .ok s) ∧
    (∀ (name : String) (o : EnhOutcome),
      enhanceWithClaude [] name o = .error "ZeroDivisionError: division by zero") ∧
    (∀ (name : String) (o : EnhOutcome),
      fullAnalysis [] name o = .error "ZeroDivisionError: division by zero") := by
  refine ⟨?_, ?_, ?_⟩
  · intro cs name o hne
    have ht : ¬ cs.length = 0 := by simpa using (List.length_pos.mpr hne).ne'
    simp only [enhanceWithClaude, if_neg ht]
    cases o <;> exact ⟨_, rfl⟩
  · intro name o
    rfl
  · intro name o
    rfl

/-- Witness for `C9_enhancer_fallback` at a concrete input. -/
theorem C9_enhancer_fallback_witness :
    enhanceWithClaude [⟨"positive", 1, 0⟩] "Davido" .callThrows
      = .ok (fallbackSummary "Davido"
          ([⟨"positive", 1, 0⟩].filter (fun c : AnComment => c.sentiment = "positive")).length
          ([⟨"positive", 1, 0⟩] : List AnComment).length) ∧
    (fallbackSummary "Davido"
      ([⟨"positive", 1, 0⟩].filter (fun c : AnComment => c.sentiment = "positive")).length
      ([⟨"positive", 1, 0⟩] : List AnComment).length).headline ≠ "" :=
  C9_enhancer_fallback [⟨"positive", 1, 0⟩] "Davido" .callThrows (by simp) (Or.inl rfl)

/-- Witness for `C10_enhancer_totality` at concrete inputs. -/
theorem C10_enhancer_totality_witness :
    (∃ s, enhanceWithClaude [⟨"negative", -1, 1⟩] "Wizkid" .badJson = .ok s) ∧
    enhanceWithClaude [] "Wizkid" .badJson = .error "ZeroDivisionError: division by zero" :=
  ⟨C10_enhancer_totality.1 [⟨"negative", -1, 1⟩] "Wizkid" .badJson (by simp),
   C10_enhancer_totality.2.1 "Wizkid" .badJson⟩

end NaijaVibe
